import Mathlib

/- Shallow embedding of the suitability computation engine in
backend/suitability_analyzer.py.

Modeling conventions:
- numpy float32 arithmetic is idealized as exact rational arithmetic;
- a raster cell is Option Rat, with none standing for NaN (the missing
  marker that load_and_normalize_factor substitutes for the nodata
  sentinel); numpy comparisons against NaN are false, mirrored by
  matching on none;
- a raster grid is its flattened list of cells; all input rasters are
  taken as co-registered on the reference grid, so the warp.reproject
  calls reduce to the identity copy (the no-op case of spatial
  alignment described for the aligner);
- Python dicts are association lists in insertion order;
- the ZeroDivisionError raised by weight renormalization and the
  FileNotFoundError raised when no factor file exists are the two
  error outcomes of calculate_suitability. -/

namespace Suitability

abbrev Cell : Type := Option ℚ

abbrev Grid : Type := List Cell

abbrev DataFolder : Type := List (String × Grid)

abbrev Weights : Type := List (String × ℚ)

/-- The two fatal errors calculate_suitability can raise. -/
inductive AnalysisError : Type
  | zeroDivision : AnalysisError
  | noReference : AnalysisError
deriving DecidableEq

/-- Iteration order of self.factor_files (Python dict insertion order). -/
def factorOrder : List String :=
  ["fertility", "moisture", "soc", "ndvi", "nitrogen",
   "phosphorus", "potassium", "ph", "texture", "sulphur"]

/-- self.default_weights. -/
def default_weights : Weights :=
  [("fertility", 30), ("moisture", 25), ("soc", 12), ("ndvi", 12),
   ("nitrogen", 8), ("phosphorus", 7), ("potassium", 6), ("ph", 6),
   ("texture", 3), ("sulphur", 1)]

/-- Raw grid stored for a factor in the data folder (nodata already
replaced by the missing marker), or none when the file is absent. -/
def lookupFile (folder : DataFolder) (f : String) : Option Grid :=
  (folder.find? (fun p => p.1 == f)).map Prod.snd

/-- Lookup weights[f], with an irrelevant default for absent keys. -/
def weightOf (w : Weights) (f : String) : ℚ :=
  ((w.find? (fun p => p.1 == f)).map Prod.snd).getD 0

/-- One pass of the loop normalized = np.where(raster_data == val,
norm_val, normalized) over a categorical lookup table, starting from
the zero-filled array. -/
def applyMapping (m : List (ℚ × ℚ)) (x : ℚ) (init : ℚ) : ℚ :=
  m.foldl (fun acc p => if x = p.1 then p.2 else acc) init

/-- Per-cell value of normalize_raster_values on a valid (non-missing)
cell, for every factor except ndvi (whose branch returns early). -/
def normalizeValid (factor : String) (x : ℚ) : ℚ :=
  if factor = "ph" then
    if x < 4.5 then 0.1
    else if x < 5.5 then 0.3
    else if x < 6.0 then 0.6
    else if x ≤ 7.5 then 1.0
    else if x ≤ 8.5 then 0.7
    else if x ≤ 9.0 then 0.4
    else 0.1
  else if factor = "fertility" then
    if x = 0 then 1.0
    else if x ≤ 4 then 0.8
    else if x ≤ 8 then 0.6
    else if x ≤ 12 then 0.4
    else if x ≤ 36 then 0.2
    else 0.0
  else if factor = "nitrogen" then
    if x = 5 then 1.0 else 0.0
  else if factor = "potassium" then
    if x = 5 then 1.0 else 0.0
  else if factor = "phosphorus" then
    applyMapping [(2, 0.0), (3, 0.33), (4, 0.66), (5, 1.0)] x 0.0
  else if factor = "soc" then
    if x < 1.0 then 0.2
    else if x < 1.5 then 0.4
    else if x < 2.0 then 0.6
    else if x < 2.5 then 0.8
    else 1.0
  else if factor = "texture" then
    applyMapping [(0, 0.0), (1, 0.2), (2, 0.33), (4, 0.66), (5, 1.0)] x 0.0
  else if factor = "moisture" then
    applyMapping [(0, 0.0), (3, 0.5), (4, 0.7), (5, 1.0), (6, 0.7),
                  (7, 0.5), (8, 0.3), (9, 0.1), (10, 0.0)] x 0.0
  else if factor = "sulphur" then
    if x < 2.5 then 0.0
    else if x < 3.5 then 0.33
    else if x < 4.5 then 0.66
    else 1.0
  else
    min 1 (max 0 x)

/-- The ndvi branch: np.select over exact value matches with default 0.
NaN compares false against every condition, so a missing cell falls
through to the default. -/
def ndvi_select (c : Cell) : ℚ :=
  match c with
  | none => 0
  | some x =>
    if x = 1 then 10
    else if x = 2 then 40
    else if x = 3 then 100
    else if x = 4 then 80
    else if x = 5 then 20
    else 0

/-- normalize_raster_values, per cell: the ndvi branch returns the
np.select result directly (always a number, because the early return
skips the final nodata restore), every other branch keeps missing
cells missing via that restore. -/
def normalize_raster_values (factor : String) (c : Cell) : Cell :=
  if factor = "ndvi" then some (ndvi_select c)
  else c.map (normalizeValid factor)

/-- Weight renormalization at the top of calculate_suitability. The
Python dict comprehension divides each value by the total, raising
ZeroDivisionError exactly when the mapping is nonempty and the total
is zero (over an empty mapping the body never runs). -/
def renormalize_weights (w : Weights) : Except AnalysisError Weights :=
  let total : ℚ := (w.map Prod.snd).sum
  if total = 100 then Except.ok w
  else if total = 0 ∧ w ≠ [] then Except.error AnalysisError.zeroDivision
  else Except.ok (w.map (fun p => (p.1, p.2 / total * 100)))

/-- load_and_normalize_factor: none when the file is absent, otherwise
the normalized grid (alignment to the reference grid is the identity
for co-registered rasters). -/
def load_and_normalize_factor (folder : DataFolder) (f : String) : Option Grid :=
  (lookupFile folder f).map (fun g => g.map (normalize_raster_values f))

/-- The factors actually processed by the main loop: factor_files
order, restricted to factors with a weight entry whose file loads. -/
def processedFactors (folder : DataFolder) (w : Weights) : List (String × Grid) :=
  factorOrder.filterMap (fun f =>
    if (w.find? (fun p => p.1 == f)).isSome then
      (load_and_normalize_factor folder f).map (fun g => (f, g))
    else none)

/-- np.zeros(target_shape). -/
def np_zeros (n : Nat) : Grid := List.replicate n (some 0)

/-- suitability[valid_mask] += normalized[valid_mask] * weight. -/
def addWeighted (s g : Grid) (w : ℚ) : Grid :=
  (List.range s.length).map (fun i =>
    match g.getD i none with
    | none => s.getD i none
    | some x => (s.getD i none).map (fun a => a + x * w))

/-- The factor accumulation loop of calculate_suitability. -/
def aggregate (n : Nat) (procs : List (String × Grid)) (w : Weights) : Grid :=
  procs.foldl (fun s p => addWeighted s p.2 (weightOf w p.1 / 100)) (np_zeros n)

/-- Running total of the weight fractions actually applied. -/
def total_weights_used (procs : List (String × Grid)) (w : Weights) : ℚ :=
  (procs.map (fun p => weightOf w p.1 / 100)).sum

/-- suitability = suitability / total_weights_used, when positive. -/
def scaleByTotal (s : Grid) (tw : ℚ) : Grid :=
  if 0 < tw then s.map (fun c => c.map (fun a => a / tw)) else s

/-- The ndvi penalty overlay: np.where over the raw resampled ndvi
grid, poor cells (raw 1 or 2) forced to 0.1, then forest cells
(raw 5) forced to 0.2. -/
def applyPenalty (s raw : Grid) : Grid :=
  (List.range s.length).map (fun i =>
    let r := raw.getD i none
    let c := if r = some 1 ∨ r = some 2 then some (0.1 : ℚ) else s.getD i none
    if r = some 5 then some (0.2 : ℚ) else c)

/-- Round to the nearest integer, ties to even (np.round convention). -/
def roundHalfEven (q : ℚ) : ℤ :=
  if Int.fract q < 1/2 then ⌊q⌋
  else if 1/2 < Int.fract q then ⌊q⌋ + 1
  else if ⌊q⌋ % 2 = 0 then ⌊q⌋ else ⌊q⌋ + 1

/-- np.round(x, 1). -/
def round1 (q : ℚ) : ℚ := (roundHalfEven (q * 10) : ℚ) / 10

/-- np.round(suitability, 1) cellwise. -/
def discretize (s : Grid) : Grid := s.map (fun c => c.map round1)

/-- suitability * 100. -/
def rescale (s : Grid) : Grid := s.map (fun c => c.map (fun x => x * 100))

/-- np.clip(suitability, 0, 100). -/
def clip0to100 (s : Grid) : Grid :=
  s.map (fun c => c.map (fun x => min 100 (max 0 x)))

/-- The composite grid after aggregation, rescaling by the total weight
used, and the ndvi penalty overlay, on a reference grid of n cells.
The overlay runs only when ndvi is among the processed factors and its
file exists. -/
def penalized_suitability (folder : DataFolder) (w : Weights) (n : Nat) : Grid :=
  let procs := processedFactors folder w
  let base := scaleByTotal (aggregate n procs w) (total_weights_used procs w)
  if ((procs.find? (fun p => p.1 == "ndvi")).isSome) then
    match lookupFile folder "ndvi" with
    | some raw => applyPenalty base raw
    | none => base
  else base

/-- The composite grid right after discretization (np.round to one
decimal place), before the conversion to the 0-100 scale. -/
def discretized_suitability (folder : DataFolder) (w : Weights) (n : Nat) : Grid :=
  discretize (penalized_suitability folder w n)

/-- calculate_suitability: renormalize weights, pick the first existing
factor file as reference grid, aggregate, apply the penalty overlay,
discretize, convert to the 0-100 scale and clip. -/
def calculate_suitability (folder : DataFolder) (weights? : Option Weights) :
    Except AnalysisError Grid :=
  match renormalize_weights (weights?.getD default_weights) with
  | Except.error e => Except.error e
  | Except.ok w =>
    match factorOrder.find? (fun f => (lookupFile folder f).isSome) with
    | none => Except.error AnalysisError.noReference
    | some ref =>
      Except.ok (clip0to100 (rescale
        (discretized_suitability folder w ((lookupFile folder ref).getD []).length)))

/-- save_suitability_raster: missing cells become the -9999 nodata
sentinel in the written band. -/
def save_suitability_raster (s : Grid) : List ℚ :=
  s.map (fun c => c.getD (-9999))


/- Reducibility and decidability support for concrete evaluation. -/

attribute [local semireducible] Rat.ofScientific Rat.mul Rat.inv Rat.add Rat.sub

instance {e a : Type} [DecidableEq e] [DecidableEq a] : DecidableEq (Except e a) := fun x y =>
  match x, y with
  | Except.error u, Except.error v =>
    if h : u = v then Decidable.isTrue (by rw [h])
    else Decidable.isFalse (fun hc => by cases hc; exact h rfl)
  | Except.error _, Except.ok _ => Decidable.isFalse (fun hc => by cases hc)
  | Except.ok _, Except.error _ => Decidable.isFalse (fun hc => by cases hc)
  | Except.ok u, Except.ok v =>
    if h : u = v then Decidable.isTrue (by rw [h])
    else Decidable.isFalse (fun hc => by cases hc; exact h rfl)

theorem length_np_zeros (n : Nat) : (np_zeros n).length = n := by
  simp [np_zeros]

theorem length_addWeighted (s g : Grid) (w : ℚ) : (addWeighted s g w).length = s.length := by
  simp [addWeighted]

theorem length_aggregate (n : Nat) (procs : List (String × Grid)) (w : Weights) :
    (aggregate n procs w).length = n := by
  suffices h : ∀ (ps : List (String × Grid)) (s : Grid),
      (ps.foldl (fun s p => addWeighted s p.2 (weightOf w p.1 / 100)) s).length = s.length by
    simpa [aggregate, length_np_zeros] using h procs (np_zeros n)
  intro ps
  induction ps with
  | nil => intro s; rfl
  | cons a ps ih =>
    intro s
    rw [List.foldl_cons]
    exact (ih _).trans (length_addWeighted _ _ _)

theorem length_scaleByTotal (s : Grid) (tw : ℚ) : (scaleByTotal s tw).length = s.length := by
  unfold scaleByTotal; split <;> simp

theorem length_applyPenalty (s raw : Grid) : (applyPenalty s raw).length = s.length := by
  simp [applyPenalty]

theorem length_discretize (s : Grid) : (discretize s).length = s.length := by simp [discretize]

theorem length_rescale (s : Grid) : (rescale s).length = s.length := by simp [rescale]

theorem length_clip0to100 (s : Grid) : (clip0to100 s).length = s.length := by simp [clip0to100]

theorem length_penalized (folder : DataFolder) (w : Weights) (n : Nat) :
    (penalized_suitability folder w n).length = n := by
  unfold penalized_suitability
  split <;> dsimp only <;> split <;>
    simp [length_applyPenalty, length_scaleByTotal, length_aggregate]

theorem length_discretized (folder : DataFolder) (w : Weights) (n : Nat) :
    (discretized_suitability folder w n).length = n := by
  rw [discretized_suitability, length_discretize, length_penalized]

theorem getD_map_of_lt (l : Grid) (f : Cell → Cell) (i : Nat) (hi : i < l.length) :
    (l.map f).getD i none = f (l.getD i none) := by
  rw [List.getD_eq_getElem _ _ (by simpa using hi), List.getD_eq_getElem _ _ hi,
    List.getElem_map]

theorem getD_range_map (F : Nat → Cell) (n i : Nat) (hi : i < n) :
    ((List.range n).map F).getD i none = F i := by
  rw [List.getD_eq_getElem _ _ (by simpa using hi), List.getElem_map, List.getElem_range]

theorem cell_np_zeros (n i : Nat) (hi : i < n) : (np_zeros n).getD i none = some 0 := by
  rw [np_zeros, List.getD_eq_getElem _ _ (by simpa using hi), List.getElem_replicate]

theorem cell_addWeighted (s g : Grid) (w : ℚ) (i : Nat) (hi : i < s.length) :
    (addWeighted s g w).getD i none =
      match g.getD i none with
      | none => s.getD i none
      | some x => (s.getD i none).map (fun a => a + x * w) := by
  rw [addWeighted, getD_range_map _ _ _ hi]
  try rfl

theorem cell_applyPenalty (s raw : Grid) (i : Nat) (hi : i < s.length) :
    (applyPenalty s raw).getD i none =
      (if raw.getD i none = some 5 then some (0.2 : ℚ)
       else if raw.getD i none = some 1 ∨ raw.getD i none = some 2 then some (0.1 : ℚ)
       else s.getD i none) := by
  rw [applyPenalty, getD_range_map _ _ _ hi]

theorem cell_scaleByTotal_pos (s : Grid) (tw : ℚ) (h : 0 < tw) (i : Nat) (hi : i < s.length) :
    (scaleByTotal s tw).getD i none = (s.getD i none).map (fun a => a / tw) := by
  rw [scaleByTotal, if_pos h, getD_map_of_lt _ _ _ hi]

theorem cell_discretize (s : Grid) (i : Nat) (hi : i < s.length) :
    (discretize s).getD i none = (s.getD i none).map round1 := by
  rw [discretize, getD_map_of_lt _ _ _ hi]

theorem cell_rescale (s : Grid) (i : Nat) (hi : i < s.length) :
    (rescale s).getD i none = (s.getD i none).map (fun x => x * 100) := by
  rw [rescale, getD_map_of_lt _ _ _ hi]

theorem cell_clip0to100 (s : Grid) (i : Nat) (hi : i < s.length) :
    (clip0to100 s).getD i none = (s.getD i none).map (fun x => min 100 (max 0 x)) := by
  rw [clip0to100, getD_map_of_lt _ _ _ hi]

theorem cell_final (s : Grid) (i : Nat) (hi : i < s.length) :
    (clip0to100 (rescale (discretize s))).getD i none
      = (s.getD i none).map (fun x => min 100 (max 0 (round1 x * 100))) := by
  rw [cell_clip0to100 _ _ (by simp [length_rescale, length_discretize, hi]),
    cell_rescale _ _ (by simp [length_discretize, hi]),
    cell_discretize _ _ hi]
  cases s.getD i none <;> rfl

theorem find?_isSome_map_renorm (w : Weights) (t : ℚ) (f : String) :
    ((w.map (fun p => (p.1, p.2 / t * 100))).find? (fun p => p.1 == f)).isSome
      = (w.find? (fun p => p.1 == f)).isSome := by
  rw [List.find?_map]
  rw [show ((fun p => p.1 == f) ∘ fun p : String × ℚ => (p.1, p.2 / t * 100))
      = (fun p : String × ℚ => p.1 == f) from rfl]
  simp

theorem renorm_preserves_keys (w0 w1 : Weights) (h : renormalize_weights w0 = Except.ok w1)
    (f : String) :
    (w1.find? (fun p => p.1 == f)).isSome = (w0.find? (fun p => p.1 == f)).isSome := by
  unfold renormalize_weights at h
  dsimp only at h
  split at h
  · cases h; rfl
  · split at h
    · cases h
    · cases h; exact find?_isSome_map_renorm w0 _ f

theorem ndvi_processed (folder : DataFolder) (w : Weights) (raw : Grid)
    (hw : (w.find? (fun p => p.1 == "ndvi")).isSome)
    (hfile : lookupFile folder "ndvi" = some raw) :
    ((processedFactors folder w).find? (fun p => p.1 == "ndvi")).isSome := by
  have hmem : ("ndvi", raw.map (normalize_raster_values "ndvi"))
      ∈ processedFactors folder w := by
    unfold processedFactors
    apply List.mem_filterMap.2
    refine ⟨"ndvi", by decide, ?_⟩
    rw [if_pos hw]
    simp [load_and_normalize_factor, hfile]
  exact List.find?_isSome.2 ⟨_, hmem, by simp⟩

/-- C4: when the penalty overlay runs (ndvi has a weight entry and its file
exists), a cell whose raw vegetation-index value is 1 or 2 reads exactly 10
in the final output, and a cell whose raw value is 5 reads exactly 20,
regardless of the weighted blended score there. -/
theorem C4_penalty_precedence (folder : DataFolder) (w0 : Weights) (raw out : Grid) (i : Nat)
    (hw : (w0.find? (fun p => p.1 == "ndvi")).isSome)
    (hfile : lookupFile folder "ndvi" = some raw)
    (hout : calculate_suitability folder (some w0) = Except.ok out)
    (hi : i < out.length) :
    ((raw.getD i none = some 1 ∨ raw.getD i none = some 2) → out.getD i none = some 10) ∧
    (raw.getD i none = some 5 → out.getD i none = some 20) := by
  unfold calculate_suitability at hout
  rw [show (some w0).getD default_weights = w0 from rfl] at hout
  split at hout
  · cases hout
  · rename_i w1 hren
    split at hout
    · cases hout
    · rename_i ref href
      injection hout with hout
      subst hout
      set n := ((lookupFile folder ref).getD []).length with hn
      have hcond : ((processedFactors folder w1).find? (fun p => p.1 == "ndvi")).isSome := by
        apply ndvi_processed folder w1 raw _ hfile
        rw [renorm_preserves_keys w0 w1 hren]
        exact hw
      have hpen : penalized_suitability folder w1 n
          = applyPenalty (scaleByTotal (aggregate n (processedFactors folder w1) w1)
              (total_weights_used (processedFactors folder w1) w1)) raw := by
        unfold penalized_suitability
        rw [if_pos hcond, hfile]
      have hiP : i < (penalized_suitability folder w1 n).length := by
        rw [length_penalized]
        simpa [length_clip0to100, length_rescale, discretized_suitability,
          length_discretize, length_penalized] using hi
      have hibase : i < (scaleByTotal (aggregate n (processedFactors folder w1) w1)
          (total_weights_used (processedFactors folder w1) w1)).length := by
        rw [length_scaleByTotal, length_aggregate]
        rw [hpen, length_applyPenalty, length_scaleByTotal, length_aggregate] at hiP
        exact hiP
      have hcell : (clip0to100 (rescale (discretized_suitability folder w1 n))).getD i none
          = ((penalized_suitability folder w1 n).getD i none).map
              (fun x => min 100 (max 0 (round1 x * 100))) := by
        rw [discretized_suitability]
        exact cell_final _ i hiP
      constructor
      · intro hraw
        rw [hcell, hpen, cell_applyPenalty _ _ _ hibase]
        have h5 : ¬ (raw.getD i none = some 5) := by
          rcases hraw with h | h <;> rw [h] <;> decide
        rw [if_neg h5, if_pos hraw]
        decide
      · intro hraw
        rw [hcell, hpen, cell_applyPenalty _ _ _ hibase]
        rw [if_pos hraw]
        decide

theorem sum_map_renorm (w : Weights) (t : ℚ) :
    ((w.map (fun p => (p.1, p.2 / t * 100))).map Prod.snd).sum
      = (w.map Prod.snd).sum / t * 100 := by
  induction w with
  | nil => simp
  | cons a w ih =>
    simp only [List.map_cons, List.sum_cons, ih]
    ring

/-- C6: for a weight mapping with positive total, renormalization succeeds
and the weights actually used are the original values rescaled so that they
sum exactly to 100; a mapping already summing to 100 is used unchanged. -/
theorem C6_weight_renormalization (w : Weights) (h : 0 < (w.map Prod.snd).sum) :
    ∃ w2, renormalize_weights w = Except.ok w2 ∧ (w2.map Prod.snd).sum = 100 ∧
      ((w.map Prod.snd).sum = 100 → w2 = w) := by
  have hne : (w.map Prod.snd).sum ≠ 0 := ne_of_gt h
  by_cases h100 : (w.map Prod.snd).sum = 100
  · refine ⟨w, ?_, by simpa using h100, fun _ => rfl⟩
    unfold renormalize_weights
    simp [h100]
  · refine ⟨w.map (fun p => (p.1, p.2 / (w.map Prod.snd).sum * 100)), ?_, ?_,
      fun hc => absurd hc h100⟩
    · unfold renormalize_weights
      simp [h100, hne]
    · rw [sum_map_renorm, div_self hne, one_mul]

theorem C6_witness :
    0 < (([("fertility", (50:ℚ))] : Weights).map Prod.snd).sum ∧
    ∃ w2, renormalize_weights [("fertility", 50)] = Except.ok w2 ∧
      (w2.map Prod.snd).sum = 100 ∧
      ((([("fertility", (50:ℚ))] : Weights).map Prod.snd).sum = 100 →
        w2 = [("fertility", 50)]) :=
  ⟨by norm_num, C6_weight_renormalization [("fertility", 50)] (by norm_num)⟩

/-- C7: when no known factor has a raster file in the data folder (and the
weights pass renormalization), calculate_suitability raises the
configuration error instead of returning a grid, so nothing is written. -/
theorem C7_no_reference_error (folder : DataFolder) (w0 w1 : Weights)
    (hren : renormalize_weights w0 = Except.ok w1)
    (hnone : ∀ f ∈ factorOrder, lookupFile folder f = none) :
    calculate_suitability folder (some w0) = Except.error AnalysisError.noReference := by
  have hfind : factorOrder.find? (fun f => (lookupFile folder f).isSome) = none := by
    rw [List.find?_eq_none]
    intro x hx
    simp [hnone x hx]
  simp [calculate_suitability, hren, hfind]

/-- C10: a nonempty weight mapping whose values sum to zero makes
calculate_suitability fail with the division-by-zero error during weight
renormalization, for every data folder, hence before any raster is read. -/
theorem C10_zero_total_division (folder : DataFolder) (w0 : Weights) (hne : w0 ≠ [])
    (hsum : (w0.map Prod.snd).sum = 0) :
    calculate_suitability folder (some w0) = Except.error AnalysisError.zeroDivision := by
  have hren : renormalize_weights w0 = Except.error AnalysisError.zeroDivision := by
    unfold renormalize_weights
    rw [hsum]
    norm_num [hne]
  simp [calculate_suitability, hren]

theorem isSome_cells_np_zeros (n : Nat) : ∀ c ∈ np_zeros n, c.isSome := by
  intro c hc
  rw [List.eq_of_mem_replicate hc]
  rfl

theorem isSome_getD_of_forall (s : Grid) (hs : ∀ c ∈ s, c.isSome) (i : Nat)
    (hi : i < s.length) : (s.getD i none).isSome := by
  rw [List.getD_eq_getElem _ _ hi]
  exact hs _ (List.getElem_mem hi)

theorem isSome_cells_addWeighted (s g : Grid) (w : ℚ) (hs : ∀ c ∈ s, c.isSome) :
    ∀ c ∈ addWeighted s g w, c.isSome := by
  intro c hc
  rw [addWeighted] at hc
  rcases List.mem_map.1 hc with ⟨i, hir, rfl⟩
  have hi : i < s.length := List.mem_range.1 hir
  have hcell : (s.getD i none).isSome := isSome_getD_of_forall s hs i hi
  cases hg : g.getD i none
  · simpa [hg] using hcell
  · simpa [hg] using hcell

theorem isSome_cells_aggregate (n : Nat) (procs : List (String × Grid)) (w : Weights) :
    ∀ c ∈ aggregate n procs w, c.isSome := by
  suffices h : ∀ (ps : List (String × Grid)) (s : Grid), (∀ c ∈ s, c.isSome) →
      ∀ c ∈ ps.foldl (fun s p => addWeighted s p.2 (weightOf w p.1 / 100)) s, c.isSome by
    exact h procs (np_zeros n) (isSome_cells_np_zeros n)
  intro ps
  induction ps with
  | nil => intro s hs; exact hs
  | cons a ps ih =>
    intro s hs
    rw [List.foldl_cons]
    exact ih _ (isSome_cells_addWeighted _ _ _ hs)

theorem isSome_cells_scaleByTotal (s : Grid) (tw : ℚ) (hs : ∀ c ∈ s, c.isSome) :
    ∀ c ∈ scaleByTotal s tw, c.isSome := by
  intro c hc
  rw [scaleByTotal] at hc
  split at hc
  · rcases List.mem_map.1 hc with ⟨c0, hc0, rfl⟩
    simpa using hs c0 hc0
  · exact hs c hc

theorem isSome_cells_applyPenalty (s raw : Grid) (hs : ∀ c ∈ s, c.isSome) :
    ∀ c ∈ applyPenalty s raw, c.isSome := by
  intro c hc
  rw [applyPenalty] at hc
  rcases List.mem_map.1 hc with ⟨i, hir, rfl⟩
  have hi : i < s.length := List.mem_range.1 hir
  have hcell : (s.getD i none).isSome := isSome_getD_of_forall s hs i hi
  dsimp only
  split
  · rfl
  · split
    · rfl
    · exact hcell

theorem isSome_cells_penalized (folder : DataFolder) (w : Weights) (n : Nat) :
    ∀ c ∈ penalized_suitability folder w n, c.isSome := by
  unfold penalized_suitability
  split <;> dsimp only <;> split
  · exact isSome_cells_applyPenalty _ _
      (isSome_cells_scaleByTotal _ _ (isSome_cells_aggregate _ _ _))
  · exact isSome_cells_scaleByTotal _ _ (isSome_cells_aggregate _ _ _)
  · exact isSome_cells_scaleByTotal _ _ (isSome_cells_aggregate _ _ _)
  · exact isSome_cells_scaleByTotal _ _ (isSome_cells_aggregate _ _ _)

/-- C9: whenever calculate_suitability returns normally, every cell of the
returned composite grid is a present (non-missing) value between 0 and 100,
even where every input factor was missing, and the -9999 nodata sentinel
never appears in the band written by save_suitability_raster. -/
theorem C9_output_total_and_bounded (folder : DataFolder) (weights? : Option Weights)
    (out : Grid) (hout : calculate_suitability folder weights? = Except.ok out) :
    (∀ c ∈ out, ∃ x : ℚ, c = some x ∧ 0 ≤ x ∧ x ≤ 100) ∧
      (-9999 : ℚ) ∉ save_suitability_raster out := by
  have hall : ∀ c ∈ out, ∃ x : ℚ, c = some x ∧ 0 ≤ x ∧ x ≤ 100 := by
    unfold calculate_suitability at hout
    split at hout
    · cases hout
    · split at hout
      · cases hout
      · injection hout with hout
        subst hout
        intro c hc
        rw [clip0to100] at hc
        rcases List.mem_map.1 hc with ⟨c1, hc1, rfl⟩
        rw [rescale] at hc1
        rcases List.mem_map.1 hc1 with ⟨c2, hc2, rfl⟩
        rw [discretized_suitability, discretize] at hc2
        rcases List.mem_map.1 hc2 with ⟨c0, hc0, rfl⟩
        have h0 : c0.isSome := isSome_cells_penalized _ _ _ c0 hc0
        rcases Option.isSome_iff_exists.1 h0 with ⟨y, rfl⟩
        refine ⟨min 100 (max 0 (round1 y * 100)), rfl, ?_, ?_⟩
        · exact le_min (by norm_num) (le_max_left _ _)
        · exact min_le_left _ _
  refine ⟨hall, ?_⟩
  intro hmem
  rw [save_suitability_raster] at hmem
  rcases List.mem_map.1 hmem with ⟨c, hc, hcd⟩
  rcases hall c hc with ⟨x, rfl, hx0, hx100⟩
  rw [Option.getD_some] at hcd
  rw [hcd] at hx0
  norm_num at hx0

theorem C9_witness :
    calculate_suitability [("ph", [some 7, none])] (some [("ph", 100)])
        = Except.ok [some 100, some 0] ∧
    ((∀ c ∈ ([some 100, some 0] : Grid), ∃ x : ℚ, c = some x ∧ 0 ≤ x ∧ x ≤ 100) ∧
      (-9999 : ℚ) ∉ save_suitability_raster [some 100, some 0]) :=
  ⟨by decide, C9_output_total_and_bounded [("ph", [some 7, none])] (some [("ph", 100)])
    [some 100, some 0] (by decide)⟩

theorem C4_witness :
    (([("ndvi", (100:ℚ))] : Weights).find? (fun p => p.1 == "ndvi")).isSome = true ∧
    lookupFile [("ndvi", [some 1, some 5, some 3])] "ndvi" = some [some 1, some 5, some 3] ∧
    calculate_suitability [("ndvi", [some 1, some 5, some 3])] (some [("ndvi", 100)])
        = Except.ok [some 10, some 20, some 100] ∧
    (((([some 1, some 5, some 3] : Grid).getD 0 none = some 1 ∨
        ([some 1, some 5, some 3] : Grid).getD 0 none = some 2) →
        ([some 10, some 20, some 100] : Grid).getD 0 none = some 10) ∧
      (([some 1, some 5, some 3] : Grid).getD 0 none = some 5 →
        ([some 10, some 20, some 100] : Grid).getD 0 none = some 20)) :=
  ⟨by decide, by decide, by decide,
    C4_penalty_precedence [("ndvi", [some 1, some 5, some 3])] [("ndvi", 100)]
      [some 1, some 5, some 3] [some 10, some 20, some 100] 0
      (by decide) (by decide) (by decide) (by decide)⟩

theorem C7_witness :
    renormalize_weights [("ph", 100)] = Except.ok [("ph", 100)] ∧
    (∀ f ∈ factorOrder, lookupFile ([] : DataFolder) f = none) ∧
    calculate_suitability ([] : DataFolder) (some [("ph", 100)])
        = Except.error AnalysisError.noReference :=
  ⟨by decide, by decide,
    C7_no_reference_error [] [("ph", 100)] [("ph", 100)] (by decide) (by decide)⟩

theorem C10_witness :
    ([("a", (5:ℚ)), ("b", -5)] : Weights) ≠ [] ∧
    (([("a", (5:ℚ)), ("b", -5)] : Weights).map Prod.snd).sum = 0 ∧
    calculate_suitability [("ph", [some 1])] (some [("a", 5), ("b", -5)])
        = Except.error AnalysisError.zeroDivision :=
  ⟨by decide, by decide,
    C10_zero_total_division [("ph", [some 1])] [("a", 5), ("b", -5)] (by decide) (by decide)⟩

theorem single_factor_pipeline_cell (f : String) (g : Grid) (i : Nat) (hi : i < g.length) :
    (clip0to100 (rescale (discretize (scaleByTotal
        (addWeighted (np_zeros g.length) (g.map (normalize_raster_values f)) 1) 1)))).getD i none
      = match normalize_raster_values f (g.getD i none) with
        | none => some (min 100 (max 0 (round1 ((0 : ℚ) / 1) * 100)))
        | some v => some (min 100 (max 0 (round1 ((0 + v * 1) / 1) * 100))) := by
  have hL : (addWeighted (np_zeros g.length) (g.map (normalize_raster_values f)) 1).length
      = g.length := by rw [length_addWeighted, length_np_zeros]
  rw [cell_final _ i (by rw [length_scaleByTotal, hL]; exact hi)]
  rw [cell_scaleByTotal_pos _ _ (by norm_num) i (by rw [hL]; exact hi)]
  rw [cell_addWeighted _ _ _ i (by rw [length_np_zeros]; exact hi)]
  rw [getD_map_of_lt _ _ _ hi]
  rw [cell_np_zeros _ _ hi]
  cases normalize_raster_values f (g.getD i none) <;> rfl

/-- C8: with a data folder holding only a pH raster and weights assigning pH
the full 100, every cell whose pH value is 7.0 reads exactly 100 in the
composite output (normalized 1.0, rounded 1.0, rescaled 100). -/
theorem C8_scenario_a_uniform_100 (g out : Grid)
    (hout : calculate_suitability [("ph", g)] (some [("ph", 100)]) = Except.ok out)
    (i : Nat) (hi : i < g.length) (hv : g.getD i none = some 7) :
    out.getD i none = some 100 := by
  have hpipe : calculate_suitability [("ph", g)] (some [("ph", 100)])
      = Except.ok (clip0to100 (rescale (discretize (scaleByTotal
          (addWeighted (np_zeros g.length) (g.map (normalize_raster_values "ph")) (100 / 100))
          (total_weights_used (processedFactors [("ph", g)] [("ph", 100)])
            [("ph", 100)]))))) := rfl
  rw [hpipe] at hout
  injection hout with hout
  subst hout
  have htw : total_weights_used (processedFactors [("ph", g)] [("ph", (100:ℚ))])
      [("ph", 100)] = 1 := by
    have h1 : total_weights_used (processedFactors [("ph", g)] [("ph", (100:ℚ))])
        [("ph", 100)] = 100 / 100 + 0 := rfl
    rw [h1]; norm_num
  have hdiv : (100 : ℚ) / 100 = 1 := by norm_num
  rw [htw, hdiv, single_factor_pipeline_cell "ph" g i hi, hv]
  rw [show normalize_raster_values "ph" (some 7) = some 1 from by decide]
  decide

theorem C8_witness :
    calculate_suitability [("ph", [some 7, none])] (some [("ph", 100)])
        = Except.ok [some 100, some 0] ∧
    (0 : Nat) < ([some (7:ℚ), none] : Grid).length ∧
    ([some (7:ℚ), none] : Grid).getD 0 none = some 7 ∧
    ([some (100:ℚ), some 0] : Grid).getD 0 none = some 100 :=
  ⟨by decide, by decide, by decide,
    C8_scenario_a_uniform_100 [some 7, none] [some 100, some 0] (by decide) 0
      (by decide) (by decide)⟩

/-- C1 counterexample: with a fertility raster of all zeros, an existing
vegetation-index raster of all ones, and weights fertility=100, the
composite is 100 in the valid cell, not the claimed 10: the overlay is
skipped because ndvi has no weight entry, even though its file exists. -/
theorem C1_counterexample :
    calculate_suitability [("fertility", [some 0]), ("ndvi", [some 1])]
        (some [("fertility", 100)]) = Except.ok [some 100] ∧
    some (100 : ℚ) ≠ some 10 :=
  ⟨by decide, by decide⟩

/-- C1 amended: the penalty overlay runs only when the vegetation-index
factor both has a weight entry and its file loads; with weights
fertility=100 the existing ndvi file is ignored, and the all-zero fertility
raster normalizes to 1.0, so every cell of the fertility grid reads 100. -/
theorem C1_amended_overlay_needs_weight (gf gn out : Grid)
    (hfert : ∀ c ∈ gf, c = some 0)
    (hout : calculate_suitability [("fertility", gf), ("ndvi", gn)]
        (some [("fertility", 100)]) = Except.ok out)
    (i : Nat) (hi : i < gf.length) :
    out.getD i none = some 100 := by
  have hpipe : calculate_suitability [("fertility", gf), ("ndvi", gn)]
        (some [("fertility", 100)])
      = Except.ok (clip0to100 (rescale (discretize (scaleByTotal
          (addWeighted (np_zeros gf.length)
            (gf.map (normalize_raster_values "fertility")) (100 / 100))
          (total_weights_used
            (processedFactors [("fertility", gf), ("ndvi", gn)] [("fertility", 100)])
            [("fertility", 100)]))))) := rfl
  rw [hpipe] at hout
  injection hout with hout
  subst hout
  have htw : total_weights_used
      (processedFactors [("fertility", gf), ("ndvi", gn)] [("fertility", (100:ℚ))])
      [("fertility", 100)] = 1 := by
    have h1 : total_weights_used
        (processedFactors [("fertility", gf), ("ndvi", gn)] [("fertility", (100:ℚ))])
        [("fertility", 100)] = 100 / 100 + 0 := rfl
    rw [h1]; norm_num
  have hdiv : (100 : ℚ) / 100 = 1 := by norm_num
  have hv : gf.getD i none = some 0 := by
    rw [List.getD_eq_getElem _ _ hi]
    exact hfert _ (List.getElem_mem hi)
  rw [htw, hdiv, single_factor_pipeline_cell "fertility" gf i hi, hv]
  rw [show normalize_raster_values "fertility" (some 0) = some 1 from by decide]
  decide

theorem C1_amended_witness :
    (∀ c ∈ ([some 0] : Grid), c = some 0) ∧
    calculate_suitability [("fertility", [some 0]), ("ndvi", [some 1])]
        (some [("fertility", 100)]) = Except.ok [some 100] ∧
    (0 : Nat) < ([some (0:ℚ)] : Grid).length ∧
    ([some (100:ℚ)] : Grid).getD 0 none = some 100 :=
  ⟨by decide, by decide, by decide,
    C1_amended_overlay_needs_weight [some 0] [some 1] [some 100] (by decide) (by decide)
      0 (by decide)⟩

/-- C3 counterexample: a pH raster with a single missing cell and weights
ph=100 produce composite 0 at that cell, a number, not a missing value. -/
theorem C3_counterexample :
    calculate_suitability [("ph", [none])] (some [("ph", 100)]) = Except.ok [some 0] ∧
    some (0 : ℚ) ≠ (none : Cell) :=
  ⟨by decide, by decide⟩

/-- Unpacking membership in the processed-factor pool: a processed factor
is a known factor with a weight entry whose raw file exists, carrying the
normalized version of that raw grid. -/
theorem mem_processedFactors (folder : DataFolder) (w : Weights) (p : String × Grid)
    (hp : p ∈ processedFactors folder w) :
    p.1 ∈ factorOrder ∧ (w.find? (fun q => q.1 == p.1)).isSome ∧
      ∃ graw, lookupFile folder p.1 = some graw ∧
        p.2 = graw.map (normalize_raster_values p.1) := by
  unfold processedFactors at hp
  rcases List.mem_filterMap.1 hp with ⟨f, hfo, hf⟩
  by_cases hw : (w.find? (fun q => q.1 == f)).isSome
  · rw [if_pos hw] at hf
    cases hload : load_and_normalize_factor folder f with
    | none => rw [hload] at hf; cases hf
    | some gn =>
      rw [hload] at hf
      injection hf with hf
      subst hf
      refine ⟨hfo, hw, ?_⟩
      unfold load_and_normalize_factor at hload
      cases hlook : lookupFile folder f with
      | none => rw [hlook] at hload; cases hload
      | some graw =>
        rw [hlook] at hload
        injection hload with hload
        exact ⟨graw, rfl, hload.symm⟩
  · rw [if_neg hw] at hf; cases hf

/-- At a cell where every processed grid is missing or zero, the masked
weighted accumulation leaves the zero-initialized accumulator at zero. -/
theorem aggregate_cell_zero (n : Nat) (procs : List (String × Grid)) (w : Weights) (i : Nat)
    (hi : i < n)
    (hcell : ∀ p ∈ procs, p.2.getD i none = none ∨ p.2.getD i none = some 0) :
    (aggregate n procs w).getD i none = some 0 := by
  suffices h : ∀ (ps : List (String × Grid)) (s : Grid),
      (∀ p ∈ ps, p.2.getD i none = none ∨ p.2.getD i none = some 0) →
      s.length = n → s.getD i none = some 0 →
      (ps.foldl (fun s p => addWeighted s p.2 (weightOf w p.1 / 100)) s).getD i none
        = some 0 by
    exact h procs (np_zeros n) hcell (length_np_zeros n) (cell_np_zeros n i hi)
  intro ps
  induction ps with
  | nil => intro s _ _ hs0; exact hs0
  | cons a ps ih =>
    intro s hp hlen hs0
    rw [List.foldl_cons]
    refine ih _ (fun p hmem => hp p (List.mem_cons_of_mem a hmem))
      ((length_addWeighted _ _ _).trans hlen) ?_
    rw [cell_addWeighted _ _ _ i (by rw [hlen]; exact hi)]
    rcases hp a (List.mem_cons_self a ps) with h | h
    · rw [h]
      simpa using hs0
    · rw [h, hs0]
      simp

/-- Dividing by the total weight keeps a zero cell at zero, whatever the
total. -/
theorem cell_scaleByTotal_zero (s : Grid) (tw : ℚ) (i : Nat) (hi : i < s.length)
    (h0 : s.getD i none = some 0) : (scaleByTotal s tw).getD i none = some 0 := by
  rw [scaleByTotal]
  split
  · rw [getD_map_of_lt _ _ _ hi, h0]
    simp
  · exact h0

/-- C3 amended: in every invocation of calculate_suitability, a cell at
which every contributing factor (weight entry present and file existing)
has a missing raw value gets composite value 0, not a missing value: the
zero-initialized accumulator is left untouched there (the ndvi rule even
contributes an explicit 0), the penalty overlay does not fire on a missing
raw cell, and 0 flows through rounding, rescaling and clipping. -/
theorem C3_amended_missing_becomes_zero (folder : DataFolder) (weights? : Option Weights)
    (out : Grid) (hout : calculate_suitability folder weights? = Except.ok out)
    (i : Nat) (hi : i < out.length)
    (hmiss : ∀ f ∈ factorOrder,
      ((weights?.getD default_weights).find? (fun p => p.1 == f)).isSome →
      ((lookupFile folder f).getD []).getD i none = none) :
    out.getD i none = some 0 := by
  unfold calculate_suitability at hout
  split at hout
  · cases hout
  · rename_i w1 hren
    split at hout
    · cases hout
    · rename_i ref href
      injection hout with hout
      subst hout
      set n := ((lookupFile folder ref).getD []).length with hn
      have hin : i < n := by
        simpa [length_clip0to100, length_rescale, discretized_suitability,
          length_discretize, length_penalized] using hi
      have hproc : ∀ p ∈ processedFactors folder w1,
          p.2.getD i none = none ∨ p.2.getD i none = some 0 := by
        intro p hp
        rcases mem_processedFactors folder w1 p hp with ⟨hfo, hw, graw, hlook, hgn⟩
        have hwk : ((weights?.getD default_weights).find?
            (fun q => q.1 == p.1)).isSome := by
          rw [← renorm_preserves_keys _ w1 hren p.1]
          exact hw
        have hrawcell : graw.getD i none = none := by
          have := hmiss p.1 hfo hwk
          rw [hlook] at this
          simpa using this
        rcases Nat.lt_or_ge i graw.length with hlt | hge
        · rw [hgn, getD_map_of_lt _ _ _ hlt, hrawcell]
          by_cases hf : p.1 = "ndvi"
          · right; simp [normalize_raster_values, hf, ndvi_select]
          · left; simp [normalize_raster_values, hf]
        · left
          rw [hgn, List.getD_eq_default]
          simpa using hge
      have hbase : (scaleByTotal (aggregate n (processedFactors folder w1) w1)
          (total_weights_used (processedFactors folder w1) w1)).getD i none = some 0 :=
        cell_scaleByTotal_zero _ _ i (by rw [length_aggregate]; exact hin)
          (aggregate_cell_zero n _ w1 i hin hproc)
      have hpen : (penalized_suitability folder w1 n).getD i none = some 0 := by
        unfold penalized_suitability
        split
        · rename_i raw hraw
          dsimp only
          split
          · rename_i hgate
            rw [cell_applyPenalty _ _ i
              (by rw [length_scaleByTotal, length_aggregate]; exact hin)]
            rcases List.find?_isSome.1 hgate with ⟨p, hp, hpred⟩
            have hp1 : p.1 = "ndvi" := by simpa using hpred
            rcases mem_processedFactors folder w1 p hp with ⟨hfo, hw, _, _, _⟩
            rw [hp1] at hw hfo
            have hwk : ((weights?.getD default_weights).find?
                (fun q => q.1 == "ndvi")).isSome := by
              rw [← renorm_preserves_keys _ w1 hren "ndvi"]
              exact hw
            have hrawcell : raw.getD i none = none := by
              have := hmiss "ndvi" hfo hwk
              rw [hraw] at this
              simpa using this
            rw [hrawcell, if_neg (by simp), if_neg (by simp)]
            exact hbase
          · exact hbase
        · dsimp only
          split
          · exact hbase
          · exact hbase
      have hcell : (clip0to100 (rescale (discretized_suitability folder w1 n))).getD i none
          = ((penalized_suitability folder w1 n).getD i none).map
              (fun x => min 100 (max 0 (round1 x * 100))) := by
        rw [discretized_suitability]
        exact cell_final _ i (by rw [length_penalized]; exact hin)
      rw [hcell, hpen]
      decide

theorem C3_amended_witness :
    calculate_suitability [("ph", [none])] (some [("ph", 100)]) = Except.ok [some 0] ∧
    (0 : Nat) < ([some (0:ℚ)] : Grid).length ∧
    (∀ f ∈ factorOrder,
      (((some [("ph", (100:ℚ))] : Option Weights).getD default_weights).find?
        (fun p => p.1 == f)).isSome →
      ((lookupFile [("ph", [none])] f).getD []).getD 0 none = none) ∧
    ([some (0:ℚ)] : Grid).getD 0 none = some 0 :=
  ⟨by decide, by decide, by decide,
    C3_amended_missing_becomes_zero [("ph", [none])] (some [("ph", 100)]) [some 0] (by decide) 0
      (by decide) (by decide)⟩

/-- C2: evaluated at a missing input cell, the ndvi rule returns the number
0 (the np.select default, reached because the early return skips the final
nodata restore), while the other rules keep the missing cell missing. -/
theorem C2_ndvi_maps_missing_to_number :
    normalize_raster_values "ndvi" none = some 0 ∧
    normalize_raster_values "ph" none = none ∧
    normalize_raster_values "fertility" none = none := by decide

/-- C5 counterexample: a run over an ndvi raster of value 3 with weights
ndvi=100 leaves 100 in the discretized grid before the rescale step, far
outside the claimed 11 bands between 0 and 1. -/
theorem C5_counterexample :
    discretized_suitability [("ndvi", [some 3])] [("ndvi", 100)] 1 = [some 100] ∧
    calculate_suitability [("ndvi", [some 3])] (some [("ndvi", 100)]) = Except.ok [some 100] ∧
    ¬ ((100 : ℚ) ≤ 1) :=
  ⟨by decide, by decide, by norm_num⟩

/-- C5 amended: every present value of the discretized composite is an exact
integer multiple of 0.1, but the value set is not confined to the 11 bands
between 0 and 1: the ndvi factor is normalized on a 0-100 scale, so values
as large as 100 occur before the rescale. -/
theorem C5_discretized_multiple_of_tenth (folder : DataFolder) (w : Weights) (n : Nat)
    (x : ℚ) (hx : some x ∈ discretized_suitability folder w n) :
    ∃ k : ℤ, x = (k : ℚ) / 10 := by
  rw [discretized_suitability, discretize] at hx
  rcases List.mem_map.1 hx with ⟨c0, _, heq⟩
  cases c0 with
  | none => simp at heq
  | some y =>
    refine ⟨roundHalfEven (y * 10), ?_⟩
    have : round1 y = x := by simpa using heq
    rw [← this, round1]

theorem C5_witness :
    some (100 : ℚ) ∈ discretized_suitability [("ndvi", [some 3])] [("ndvi", 100)] 1 ∧
    ∃ k : ℤ, (100 : ℚ) = (k : ℚ) / 10 :=
  ⟨by decide,
    C5_discretized_multiple_of_tenth [("ndvi", [some 3])] [("ndvi", 100)] 1 100 (by decide)⟩

end Suitability
